import Mathlib

/-!
Shallow embedding of `src/web_driver.py` (class `EdgeDriverLocal` and the
`__main__` block).  External effects (Windows registry read, HTTP requests,
zip extraction, webdriver launch, O365 mail, file copies) are modelled by an
`Env` of oracles; each method of the class becomes a function from an `Env`
and a `World` (object state + smoke-test call counter + event trace) to its
Python return value and the updated `World`.  A Python exception that escapes
a method is an `Except.error` carrying the crash kind and the trace so far;
methods whose whole body sits inside `try/except` are total functions, as in
the source.
-/

namespace WebDriver

/-- One `Blob` entry of the parsed XML index listing: its `Name` and the
value of `obj.get("Url")` (`none` when the key is absent, as in Python). -/
structure Blob where
  name : String
  url : Option String
deriving DecidableEq, Repr

/-- Outcome of `requests.get` on an archive URL in `download`:
either the call raised (transport error), or it returned a response with a
status code, `archiveOk` saying whether `zipfile.ZipFile(...)`/`extractall`
on the body succeed. -/
inductive HttpResult where
  | transportError : HttpResult
  | response (status : Nat) (archiveOk : Bool) : HttpResult
deriving DecidableEq, Repr

/-- Observable events of one run, in order. -/
inductive Event where
  | httpGet (url : Option String) : Event
  | extracted : Event
  | indexGet : Event
  | smokeTest (result : Bool) : Event
  | mailAttempt : Event
  | mailDelivered : Event
  | distributeCall : Event
  | copyFile (folder : String) : Event
deriving DecidableEq, Repr

/-- Ways the Python process can die with an unhandled exception. -/
inductive Crash where
  | registryError : Crash
  | configError : Crash
  | attributeError (name : String) : Crash
  | osError : Crash
deriving DecidableEq, Repr

/-- The values `properties.json` provides, as read by `__init__` via
`properties.get(...)` (each is `none` when the key is missing). -/
structure Props where
  driver_name : Option String
  base_url : Option String
  emails_to_report : Option String
  current_path : Option String
  token_id : Option String
  host : Option String
  tenant_id : Option String
  client_id : Option String
deriving DecidableEq, Repr

/-- Oracles for every external effect of one run.  `tests k` is the outcome
of the k-th `webdriver.Edge` launch probe; `http u` the outcome of
`requests.get(u)` for an archive; `indexFetch` the outcome of the whole
`requests.get(BASE_URL)` + `xmltodict`/`json` parse + key chain of
`try_another_version` (error = some exception in that chain);
`registryVersion` the `winreg` read; `propertiesFile` the
`open`/`json.load` of `properties.json`. -/
structure Env where
  registryVersion : Except Unit String
  propertiesFile : Except Unit Props
  http : String → HttpResult
  indexFetch : Except Unit (List Blob)
  tests : Nat → Bool
  mailOk : Bool
  copyOk : Bool

/-- The object's attributes.  `__init__` assigns `version` … `CLIENT_ID`;
`BOT_FOLDERS`, `token_mail` and `user_mail` are read in the source
(`copy_to_path`, `send_mail`) but assigned by no method, so `none` for those
three means "attribute missing: reading it raises `AttributeError`". -/
structure DriverState where
  version : String
  os_type : String
  url : Option String
  DRIVER_NAME : Option String
  BASE_URL : Option String
  EMAILS_TO_REPORT : Option String
  CURRENT_PATH : Option String
  TOKEN_ID : Option String
  HOST : Option String
  TENANT_ID : Option String
  CLIENT_ID : Option String
  BOT_FOLDERS : Option (List String)
  token_mail : Option String
  user_mail : Option String
deriving DecidableEq, Repr

/-- Object state plus the run's smoke-test call counter and event trace. -/
structure World where
  st : DriverState
  testCalls : Nat
  events : List Event
deriving DecidableEq, Repr

/-- `r.ok` of the `requests` library: status code below 400. -/
def requests_ok (status : Nat) : Bool := status < 400

/-- The characters of `s` before its first `'.'` (all of `s` if none):
Python's `s.split(".")[0]`. -/
def takeUntilDot : List Char → List Char
  | [] => []
  | c :: cs => if c = '.' then [] else c :: takeUntilDot cs

/-- Python `s.split(".")[0]`. -/
def pyMajor (s : String) : String := String.mk (takeUntilDot s.data)

/-- Whether the first character list starts the second. -/
def startsWithChars : List Char → List Char → Bool
  | [], _ => true
  | _ :: _, [] => false
  | a :: as, b :: bs => a = b && startsWithChars as bs

/-- Whether the first character list occurs contiguously in the second. -/
def pyInChars (sub : List Char) : List Char → Bool
  | [] => startsWithChars sub []
  | c :: cs => startsWithChars sub (c :: cs) || pyInChars sub cs

/-- Python's substring test `sub in s`. -/
def pyIn (sub s : String) : Bool := pyInChars sub.data s.data

/-- The URL built in `__init__` (line 53). -/
def buildUrl (version os_type : String) : String :=
  "https://msedgewebdriverstorage.blob.core.windows.net/edgewebdriver/" ++
    version ++ "/edgedriver_" ++ os_type ++ ".zip"

/-- `requests.get` on `self.url`: Python raises when the url is `None`. -/
def httpCall (env : Env) (u : Option String) : HttpResult :=
  match u with
  | none => HttpResult.transportError
  | some addr => env.http addr

/-- `download` (lines 88-110): one GET of `self.url`; on status 200 extract
the archive and return `r.ok`; on any other status return `False`; any
exception (transport or zip parsing) is caught and turned into `False`. -/
def download (env : Env) (w : World) : Bool × World :=
  match httpCall env w.st.url with
  | HttpResult.transportError =>
      (false, { w with events := w.events ++ [Event.httpGet w.st.url] })
  | HttpResult.response status archiveOk =>
      if status = 200 then
        if archiveOk then
          (requests_ok status,
            { w with events := w.events ++ [Event.httpGet w.st.url, Event.extracted] })
        else
          (false, { w with events := w.events ++ [Event.httpGet w.st.url] })
      else
        (false, { w with events := w.events ++ [Event.httpGet w.st.url] })

/-- `test` (lines 113-132): launch the driver, sleep, close; `True` when no
exception, any exception caught and turned into `False`.  The k-th probe's
outcome is `env.tests k`. -/
def test (env : Env) (w : World) : Bool × World :=
  (env.tests w.testCalls,
    { w with
        testCalls := w.testCalls + 1
        events := w.events ++ [Event.smokeTest (env.tests w.testCalls)] })

/-- `send_mail` (lines 199-222): the whole body is inside `try/except`, the
`except` branch only logs, so the method always returns normally.  The first
statement of the body reads `self.token_mail`; when that attribute is missing
the `AttributeError` is caught at once and nothing is sent.  (`self.user_mail`
is read later, line 213, with the same effect.) -/
def send_mail (env : Env) (w : World) (message subject : String) : World :=
  let w1 : World := { w with events := w.events ++ [Event.mailAttempt] }
  match w1.st.token_mail with
  | none => w1
  | some _ =>
      match w1.st.user_mail with
      | none => w1
      | some _ =>
          if env.mailOk then
            { w1 with events := w1.events ++ [Event.mailDelivered] }
          else w1

/-- The filter of line 151:
`[u for u in urls if u["Name"].split(".")[0] == self.version.split(".")[0]
and self.os_type in u["Name"]]`. -/
def tav_filter (version os_type : String) (urls : List Blob) : List Blob :=
  urls.filter (fun u => pyMajor u.name == pyMajor version && pyIn os_type u.name)

/-- The `for obj in list_urls` loop of lines 153-164: set `self.url` to the
candidate's `Url`, `download`, on success `test`, return `True` at the first
candidate passing both, fall through to the next candidate otherwise, and
return `False` when the list is exhausted. -/
def tav_loop (env : Env) : World → List Blob → Bool × World
  | w, [] => (false, w)
  | w, u :: rest =>
      let w1 : World := { w with st := { w.st with url := u.url } }
      let dr := download env w1
      if dr.1 then
        let tr := test env dr.2
        if tr.1 then (true, tr.2)
        else tav_loop env tr.2 rest
      else tav_loop env dr.2 rest

/-- `try_another_version` (lines 135-172): fetch and parse the index
(`env.indexFetch` bundles `requests.get(self.BASE_URL)` plus the
`xmltodict`/`json`/key-chain steps), filter the blobs, run the loop; any
exception in the fetch/parse chain is caught, `send_mail` is called and
`False` returned. -/
def try_another_version (env : Env) (w : World) : Bool × World :=
  let w1 : World := { w with events := w.events ++ [Event.indexGet] }
  match env.indexFetch with
  | Except.error _ =>
      (false,
        send_mail env w1
          "Falló la descarga de otra versión del driver, por favor revise manualmente."
          "Error en descarga de Driver alternativo a version actual")
  | Except.ok urls =>
      tav_loop env w1 (tav_filter w1.st.version w1.st.os_type urls)

/-- `import_data` (lines 225-243): return the parsed properties; on any
exception log, call `send_mail` (at that point `self.token_mail` is missing,
so the mail attempt itself fails silently) and fall off the end, returning
`None`. -/
def import_data (env : Env) (events : List Event) : Option Props × List Event :=
  match env.propertiesFile with
  | Except.ok data => (some data, events)
  | Except.error _ => (none, events ++ [Event.mailAttempt])

/-- `__init__` (lines 40-70): `_get_edge_version` (lines 73-85) has no
`try/except`, so a `winreg` failure propagates out of the constructor with no
notification; when `import_data` returns `None`, the first
`properties.get("driver_name")` raises `AttributeError` on `None`; otherwise
all attributes are assigned (`BOT_FOLDERS`, `token_mail`, `user_mail` are
not among them). -/
def EdgeDriverLocal_init (env : Env) (os_type : String) :
    Except (Crash × List Event) World :=
  match env.registryVersion with
  | Except.error _ => Except.error (Crash.registryError, [])
  | Except.ok version =>
      match import_data env [] with
      | (none, evs) => Except.error (Crash.configError, evs)
      | (some props, evs) =>
          Except.ok
            { st :=
                { version := version
                  os_type := os_type
                  url := some (buildUrl version os_type)
                  DRIVER_NAME := props.driver_name
                  BASE_URL := props.base_url
                  EMAILS_TO_REPORT := props.emails_to_report
                  CURRENT_PATH := props.current_path
                  TOKEN_ID := props.token_id
                  HOST := props.host
                  TENANT_ID := props.tenant_id
                  CLIENT_ID := props.client_id
                  BOT_FOLDERS := none
                  token_mail := none
                  user_mail := none }
              testCalls := 0
              events := evs }

/-- `copy_to_path` (lines 245-256): no `try/except`; reading
`self.BOT_FOLDERS` raises `AttributeError` when the attribute is missing;
otherwise each `shutil.copy2` may raise an `OSError`, which also
propagates. -/
def copy_to_path (env : Env) (w : World) : Except (Crash × List Event) World :=
  let w1 : World := { w with events := w.events ++ [Event.distributeCall] }
  match w1.st.BOT_FOLDERS with
  | none => Except.error (Crash.attributeError "BOT_FOLDERS", w1.events)
  | some folders =>
      if env.copyOk then
        Except.ok { w1 with events := w1.events ++ folders.map Event.copyFile }
      else Except.error (Crash.osError, w1.events)

/-- How the process ends. -/
inductive ExitKind where
  | normal : ExitKind
  | exitCall : ExitKind
  | crash (c : Crash) : ExitKind
deriving DecidableEq, Repr

/-- Process exit status: falling off the end and `exit()` (which raises
`SystemExit(None)`) both give 0; an unhandled exception gives 1. -/
def exitCode : ExitKind → Nat
  | ExitKind.normal => 0
  | ExitKind.exitCall => 0
  | ExitKind.crash _ => 1

/-- The `__main__` block (lines 258-274). -/
def main_run (env : Env) : ExitKind × List Event :=
  match EdgeDriverLocal_init env "win64" with
  | Except.error ce => (ExitKind.crash ce.1, ce.2)
  | Except.ok w0 =>
      let tr1 := test env w0
      if tr1.1 then (ExitKind.normal, tr1.2.events)
      else
        let dr := download env tr1.2
        let tr2 := test env dr.2
        if tr2.1 then
          match copy_to_path env tr2.2 with
          | Except.error ce => (ExitKind.crash ce.1, ce.2)
          | Except.ok w4 => (ExitKind.normal, w4.events)
        else
          let ar := try_another_version env tr2.2
          if ar.1 then
            match copy_to_path env ar.2 with
            | Except.error ce => (ExitKind.crash ce.1, ce.2)
            | Except.ok w5 => (ExitKind.normal, w5.events)
          else
            (ExitKind.exitCall,
              (send_mail env ar.2
                "No se pudo descargar ninguna version del driver, por favor, reviselo manualmente. "
                "Error en driver").events)

/-- Predicate picking out `mailAttempt` events. -/
def isMail : Event → Bool
  | Event.mailAttempt => true
  | _ => false

/-- Number of `send_mail` invocations recorded in a trace. -/
def mailCount (evs : List Event) : Nat := evs.countP isMail

/-- Worlds an `EdgeDriverLocal` object can be in: freshly constructed, or
the result of any method call on a reachable world. -/
inductive Reachable (env : Env) : World → Prop where
  | init (os_type : String) (w : World) :
      EdgeDriverLocal_init env os_type = Except.ok w → Reachable env w
  | test_step (w : World) : Reachable env w → Reachable env (test env w).2
  | download_step (w : World) : Reachable env w → Reachable env (download env w).2
  | tav_step (w : World) : Reachable env w → Reachable env (try_another_version env w).2
  | mail_step (w : World) (m s : String) :
      Reachable env w → Reachable env (send_mail env w m s)
  | copy_step (w w' : World) :
      Reachable env w → copy_to_path env w = Except.ok w' → Reachable env w'

theorem test_st (env : Env) (w : World) : (test env w).2.st = w.st := rfl

theorem test_fst (env : Env) (w : World) : (test env w).1 = env.tests w.testCalls := rfl

theorem test_events (env : Env) (w : World) :
    (test env w).2.events = w.events ++ [Event.smokeTest (env.tests w.testCalls)] := rfl

theorem download_st (env : Env) (w : World) : (download env w).2.st = w.st := by
  unfold download
  cases httpCall env w.st.url with
  | transportError => rfl
  | response status archiveOk =>
      by_cases h : status = 200
      · subst h; cases archiveOk <;> simp
      · simp [h]

theorem download_testCalls (env : Env) (w : World) :
    (download env w).2.testCalls = w.testCalls := by
  unfold download
  cases httpCall env w.st.url with
  | transportError => rfl
  | response status archiveOk =>
      by_cases h : status = 200
      · subst h; cases archiveOk <;> simp
      · simp [h]

theorem mailCount_append (a b : List Event) :
    mailCount (a ++ b) = mailCount a + mailCount b := by
  simp [mailCount, List.countP_append]

theorem download_mailCount (env : Env) (w : World) :
    mailCount (download env w).2.events = mailCount w.events := by
  unfold download
  cases httpCall env w.st.url with
  | transportError => simp [mailCount_append, mailCount, isMail]
  | response status archiveOk =>
      by_cases h : status = 200
      · subst h; cases archiveOk <;> simp [mailCount_append, mailCount, isMail]
      · simp [h, mailCount_append, mailCount, isMail]

theorem test_mailCount (env : Env) (w : World) :
    mailCount (test env w).2.events = mailCount w.events := by
  simp [test_events, mailCount_append, mailCount, isMail]

theorem send_mail_st (env : Env) (w : World) (m s : String) :
    (send_mail env w m s).st = w.st := by
  unfold send_mail
  dsimp only
  cases w.st.token_mail with
  | none => rfl
  | some t =>
      cases w.st.user_mail with
      | none => rfl
      | some u => by_cases h : env.mailOk <;> simp [h]

theorem send_mail_none (env : Env) (w : World) (m s : String)
    (h : w.st.token_mail = none) :
    send_mail env w m s = { w with events := w.events ++ [Event.mailAttempt] } := by
  unfold send_mail
  dsimp only
  rw [h]

theorem send_mail_mailCount (env : Env) (w : World) (m s : String) :
    mailCount (send_mail env w m s).events = mailCount w.events + 1 := by
  unfold send_mail
  dsimp only
  cases w.st.token_mail with
  | none => simp [mailCount_append, mailCount, isMail]
  | some t =>
      cases w.st.user_mail with
      | none => simp [mailCount_append, mailCount, isMail]
      | some u =>
          by_cases h : env.mailOk <;>
            simp [h, mailCount_append, mailCount, isMail]

theorem tav_loop_st (env : Env) (l : List Blob) : ∀ w : World,
    ∃ u, (tav_loop env w l).2.st = { w.st with url := u } := by
  induction l with
  | nil => intro w; exact ⟨w.st.url, rfl⟩
  | cons c rest ih =>
      intro w
      rw [tav_loop]
      dsimp only
      by_cases hd : (download env { w with st := { w.st with url := c.url } }).1 = true
      · rw [if_pos hd]
        by_cases ht :
            (test env (download env { w with st := { w.st with url := c.url } }).2).1 = true
        · rw [if_pos ht]
          refine ⟨c.url, ?_⟩
          rw [test_st, download_st]
        · rw [if_neg ht]
          obtain ⟨u, hu⟩ :=
            ih (test env (download env { w with st := { w.st with url := c.url } }).2).2
          refine ⟨u, ?_⟩
          rw [hu, test_st, download_st]
      · rw [if_neg hd]
        obtain ⟨u, hu⟩ := ih (download env { w with st := { w.st with url := c.url } }).2
        refine ⟨u, ?_⟩
        rw [hu, download_st]

theorem tav_loop_mailCount (env : Env) (l : List Blob) : ∀ w : World,
    mailCount (tav_loop env w l).2.events = mailCount w.events := by
  induction l with
  | nil => intro w; rfl
  | cons c rest ih =>
      intro w
      rw [tav_loop]
      dsimp only
      by_cases hd : (download env { w with st := { w.st with url := c.url } }).1 = true
      · rw [if_pos hd]
        by_cases ht :
            (test env (download env { w with st := { w.st with url := c.url } }).2).1 = true
        · rw [if_pos ht]
          rw [test_mailCount, download_mailCount]
        · rw [if_neg ht]
          rw [ih, test_mailCount, download_mailCount]
      · rw [if_neg hd]
        rw [ih, download_mailCount]

theorem tav_st (env : Env) (w : World) :
    ∃ u, (try_another_version env w).2.st = { w.st with url := u } := by
  unfold try_another_version
  cases env.indexFetch with
  | error e =>
      refine ⟨w.st.url, ?_⟩
      rw [send_mail_st]
  | ok urls =>
      obtain ⟨u, hu⟩ := tav_loop_st env _ { w with events := w.events ++ [Event.indexGet] }
      exact ⟨u, hu⟩

theorem tav_mailCount_ok (env : Env) (w : World) (urls : List Blob)
    (h : env.indexFetch = Except.ok urls) :
    mailCount (try_another_version env w).2.events = mailCount w.events := by
  unfold try_another_version
  rw [h]
  rw [tav_loop_mailCount]
  simp [mailCount_append, mailCount, isMail]

theorem init_ok_fields (env : Env) (os_type : String) (w : World)
    (h : EdgeDriverLocal_init env os_type = Except.ok w) :
    w.events = [] ∧ w.testCalls = 0 ∧ w.st.BOT_FOLDERS = none ∧
      w.st.token_mail = none ∧ w.st.user_mail = none ∧ w.st.os_type = os_type := by
  unfold EdgeDriverLocal_init import_data at h
  cases hr : env.registryVersion with
  | error e => rw [hr] at h; cases h
  | ok version =>
      rw [hr] at h
      cases hp : env.propertiesFile with
      | error e => rw [hp] at h; cases h
      | ok props =>
          rw [hp] at h
          simp only [Except.ok.injEq] at h
          subst h
          exact ⟨rfl, rfl, rfl, rfl, rfl, rfl⟩

theorem init_error_crash (env : Env) (os_type : String) (ce : Crash × List Event)
    (h : EdgeDriverLocal_init env os_type = Except.error ce) :
    ce = (Crash.registryError, []) ∨ ce = (Crash.configError, [Event.mailAttempt]) := by
  unfold EdgeDriverLocal_init import_data at h
  cases hr : env.registryVersion with
  | error e =>
      rw [hr] at h
      simp only [Except.error.injEq] at h
      exact Or.inl h.symm
  | ok version =>
      rw [hr] at h
      cases hp : env.propertiesFile with
      | error e =>
          rw [hp] at h
          simp only [Except.error.injEq] at h
          exact Or.inr h.symm
      | ok props => rw [hp] at h; cases h

theorem copy_missing (env : Env) (w : World) (h : w.st.BOT_FOLDERS = none) :
    copy_to_path env w =
      Except.error (Crash.attributeError "BOT_FOLDERS",
        w.events ++ [Event.distributeCall]) := by
  unfold copy_to_path
  dsimp only
  rw [h]

theorem reachable_missing_attrs (env : Env) (w : World) (h : Reachable env w) :
    w.st.BOT_FOLDERS = none ∧ w.st.token_mail = none ∧ w.st.user_mail = none := by
  induction h with
  | init os_type w hw =>
      obtain ⟨-, -, h1, h2, h3, -⟩ := init_ok_fields env os_type w hw
      exact ⟨h1, h2, h3⟩
  | test_step w hw ih => rw [test_st]; exact ih
  | download_step w hw ih => rw [download_st]; exact ih
  | tav_step w hw ih =>
      obtain ⟨u, hu⟩ := tav_st env w
      rw [hu]
      exact ih
  | mail_step w m s hw ih => rw [send_mail_st]; exact ih
  | copy_step w w' hw hcopy ih =>
      rw [copy_missing env w ih.1] at hcopy
      cases hcopy

theorem main_run_stage1 (env : Env) (w0 : World)
    (hinit : EdgeDriverLocal_init env "win64" = Except.ok w0)
    (h1 : (test env w0).1 = true) :
    main_run env = (ExitKind.normal, (test env w0).2.events) := by
  unfold main_run
  rw [hinit]
  dsimp only
  rw [if_pos h1]

theorem main_run_stage2_crash (env : Env) (w0 : World)
    (hinit : EdgeDriverLocal_init env "win64" = Except.ok w0)
    (h1 : (test env w0).1 = false)
    (h2 : (test env (download env (test env w0).2).2).1 = true) :
    main_run env =
      (ExitKind.crash (Crash.attributeError "BOT_FOLDERS"),
        (test env (download env (test env w0).2).2).2.events ++ [Event.distributeCall]) := by
  have hreach : Reachable env (test env (download env (test env w0).2).2).2 :=
    Reachable.test_step _ (Reachable.download_step _
      (Reachable.test_step _ (Reachable.init "win64" w0 hinit)))
  have hcopy := copy_missing env _ (reachable_missing_attrs env _ hreach).1
  unfold main_run
  rw [hinit]
  dsimp only
  rw [if_neg (by rw [h1]; exact Bool.false_ne_true), if_pos h2, hcopy]

theorem main_run_stage3_crash (env : Env) (w0 : World)
    (hinit : EdgeDriverLocal_init env "win64" = Except.ok w0)
    (h1 : (test env w0).1 = false)
    (h2 : (test env (download env (test env w0).2).2).1 = false)
    (h3 : (try_another_version env (test env (download env (test env w0).2).2).2).1 = true) :
    main_run env =
      (ExitKind.crash (Crash.attributeError "BOT_FOLDERS"),
        (try_another_version env
            (test env (download env (test env w0).2).2).2).2.events ++
          [Event.distributeCall]) := by
  have hreach :
      Reachable env (try_another_version env (test env (download env (test env w0).2).2).2).2 :=
    Reachable.tav_step _ (Reachable.test_step _ (Reachable.download_step _
      (Reachable.test_step _ (Reachable.init "win64" w0 hinit))))
  have hcopy := copy_missing env _ (reachable_missing_attrs env _ hreach).1
  unfold main_run
  rw [hinit]
  dsimp only
  rw [if_neg (by rw [h1]; exact Bool.false_ne_true),
      if_neg (by rw [h2]; exact Bool.false_ne_true), if_pos h3, hcopy]

theorem main_run_exhausted (env : Env) (w0 : World)
    (hinit : EdgeDriverLocal_init env "win64" = Except.ok w0)
    (h1 : (test env w0).1 = false)
    (h2 : (test env (download env (test env w0).2).2).1 = false)
    (h3 : (try_another_version env (test env (download env (test env w0).2).2).2).1 = false) :
    (main_run env).1 = ExitKind.exitCall ∧
      mailCount (main_run env).2 =
        mailCount (try_another_version env
            (test env (download env (test env w0).2).2).2).2.events + 1 := by
  have hmain : main_run env =
      (ExitKind.exitCall,
        (send_mail env
            (try_another_version env (test env (download env (test env w0).2).2).2).2
            "No se pudo descargar ninguna version del driver, por favor, reviselo manualmente. "
            "Error en driver").events) := by
    unfold main_run
    rw [hinit]
    dsimp only
    rw [if_neg (by rw [h1]; exact Bool.false_ne_true),
        if_neg (by rw [h2]; exact Bool.false_ne_true),
        if_neg (by rw [h3]; exact Bool.false_ne_true)]
  rw [hmain]
  exact ⟨rfl, send_mail_mailCount env _ _ _⟩

/-- A `properties.json` content with every key present. -/
def someProps : Props :=
  { driver_name := some "msedgedriver.exe"
    base_url := some "https://msedgewebdriverstorage.blob.core.windows.net/edgewebdriver?comp=list"
    emails_to_report := some "ops@example.com"
    current_path := some "."
    token_id := some "token"
    host := some "host"
    tenant_id := some "tenant"
    client_id := some "client" }

def blobA : Blob :=
  { name := "103.0.1264.37/edgedriver_win64.zip", url := some "https://example.com/a.zip" }

def blobB : Blob :=
  { name := "103.0.1264.51/edgedriver_win64.zip", url := some "https://example.com/b.zip" }

def blobC : Blob :=
  { name := "104.0.1293.47/edgedriver_win64.zip", url := some "https://example.com/c.zip" }

def blobD : Blob :=
  { name := "103.0.1264.40/edgedriver_linux64.zip", url := some "https://example.com/d.zip" }

/-- Environment where the pre-existing driver passes its smoke test. -/
def envStage1 : Env :=
  { registryVersion := Except.ok "103.0.1264.37"
    propertiesFile := Except.ok someProps
    http := fun _ => HttpResult.response 404 false
    indexFetch := Except.ok [blobA, blobC, blobB, blobD]
    tests := fun _ => true
    mailOk := false
    copyOk := false }

/-- Environment where every smoke test fails and every archive GET is a 404. -/
def envAllFail : Env := { envStage1 with tests := fun _ => false }

/-- Environment where the first smoke test fails and the second passes. -/
def envStage2 : Env := { envStage1 with tests := fun k => k = 1 }

/-- Environment where the registry read of the browser version raises. -/
def envRegistryFail : Env := { envStage1 with registryVersion := Except.error () }

/-- Environment where the index fetch/parse chain raises. -/
def envBadIndex : Env :=
  { envStage1 with indexFetch := Except.error (), tests := fun _ => false }

/-- The world `__init__` builds under `envStage1`'s registry and properties. -/
def w0Stage1 : World :=
  { st :=
      { version := "103.0.1264.37"
        os_type := "win64"
        url := some (buildUrl "103.0.1264.37" "win64")
        DRIVER_NAME := someProps.driver_name
        BASE_URL := someProps.base_url
        EMAILS_TO_REPORT := someProps.emails_to_report
        CURRENT_PATH := someProps.current_path
        TOKEN_ID := someProps.token_id
        HOST := someProps.host
        TENANT_ID := someProps.tenant_id
        CLIENT_ID := someProps.client_id
        BOT_FOLDERS := none
        token_mail := none
        user_mail := none }
    testCalls := 0
    events := [] }

theorem init_envStage1 : EdgeDriverLocal_init envStage1 "win64" = Except.ok w0Stage1 := rfl

theorem init_envAllFail : EdgeDriverLocal_init envAllFail "win64" = Except.ok w0Stage1 := rfl

theorem init_envStage2 : EdgeDriverLocal_init envStage2 "win64" = Except.ok w0Stage1 := rfl

theorem init_envBadIndex : EdgeDriverLocal_init envBadIndex "win64" = Except.ok w0Stage1 := rfl

theorem tav_loop_all_tests_false (env : Env) (hf : ∀ k, env.tests k = false)
    (l : List Blob) : ∀ w : World, (tav_loop env w l).1 = false := by
  induction l with
  | nil => intro w; rfl
  | cons c rest ih =>
      intro w
      rw [tav_loop]
      dsimp only
      by_cases hd : (download env { w with st := { w.st with url := c.url } }).1 = true
      · rw [if_pos hd]
        have ht : (test env (download env { w with st := { w.st with url := c.url } }).2).1
            = false := hf _
        rw [if_neg (by rw [ht]; exact Bool.false_ne_true)]
        exact ih _
      · rw [if_neg hd]
        exact ih _

theorem tav_loop_exhausted_url (env : Env) (l : List Blob) :
    ∀ (w : World) (hne : l ≠ []), (tav_loop env w l).1 = false →
      (tav_loop env w l).2.st.url = (l.getLast hne).url := by
  induction l with
  | nil => intro w hne; exact absurd rfl hne
  | cons c rest ih =>
      intro w hne hres
      rw [tav_loop] at hres ⊢
      dsimp only at hres ⊢
      by_cases hd : (download env { w with st := { w.st with url := c.url } }).1 = true
      · rw [if_pos hd] at hres ⊢
        by_cases ht :
            (test env (download env { w with st := { w.st with url := c.url } }).2).1 = true
        · rw [if_pos ht] at hres
          exact absurd hres (by simp)
        · rw [if_neg ht] at hres ⊢
          cases rest with
          | nil =>
              rw [tav_loop]
              dsimp only
              rw [test_st, download_st]
              rfl
          | cons d rest' => exact ih _ (List.cons_ne_nil d rest') hres
      · rw [if_neg hd] at hres ⊢
        cases rest with
        | nil =>
            rw [tav_loop]
            dsimp only
            rw [download_st]
            rfl
        | cons d rest' => exact ih _ (List.cons_ne_nil d rest') hres

/-- Claim C2: every invocation of the distribution step on a reachable object state
reads the never-assigned attribute `self.BOT_FOLDERS` and raises an unhandled
`AttributeError` instead of copying the binary anywhere. -/
theorem C2_distribute_always_raises (env : Env) (w : World) (h : Reachable env w) :
    copy_to_path env w =
      Except.error (Crash.attributeError "BOT_FOLDERS",
        w.events ++ [Event.distributeCall]) :=
  copy_missing env w (reachable_missing_attrs env w h).1

theorem C2_witness :
    copy_to_path envStage1 w0Stage1 =
      Except.error (Crash.attributeError "BOT_FOLDERS", [Event.distributeCall]) :=
  C2_distribute_always_raises envStage1 w0Stage1
    (Reachable.init "win64" w0Stage1 init_envStage1)

/-- Claim C3: `try_another_version` returns false when the index fetch/parse fails;
otherwise it runs the filtered candidate list in order, and for each
candidate downloads and then smoke-tests, returning true immediately at the
first candidate passing both (no recursion on the remaining candidates),
moving to the next candidate on a download or test failure, and returning
false when the sequence is exhausted (in particular whenever every smoke
test fails). -/
theorem C3_first_success_short_circuit :
    (∀ (env : Env) (w : World) (e : Unit), env.indexFetch = Except.error e →
      (try_another_version env w).1 = false) ∧
    (∀ (env : Env) (w : World) (urls : List Blob), env.indexFetch = Except.ok urls →
      try_another_version env w =
        tav_loop env { w with events := w.events ++ [Event.indexGet] }
          (tav_filter w.st.version w.st.os_type urls)) ∧
    (∀ (env : Env) (w : World), tav_loop env w [] = (false, w)) ∧
    (∀ (env : Env) (w : World) (u : Blob) (rest : List Blob),
      (download env { w with st := { w.st with url := u.url } }).1 = true →
      (test env (download env { w with st := { w.st with url := u.url } }).2).1 = true →
      tav_loop env w (u :: rest) =
        (true, (test env (download env { w with st := { w.st with url := u.url } }).2).2)) ∧
    (∀ (env : Env) (w : World) (u : Blob) (rest : List Blob),
      (download env { w with st := { w.st with url := u.url } }).1 = true →
      (test env (download env { w with st := { w.st with url := u.url } }).2).1 = false →
      tav_loop env w (u :: rest) =
        tav_loop env (test env (download env { w with st := { w.st with url := u.url } }).2).2
          rest) ∧
    (∀ (env : Env) (w : World) (u : Blob) (rest : List Blob),
      (download env { w with st := { w.st with url := u.url } }).1 = false →
      tav_loop env w (u :: rest) =
        tav_loop env (download env { w with st := { w.st with url := u.url } }).2 rest) ∧
    (∀ (env : Env) (w : World) (l : List Blob), (∀ k, env.tests k = false) →
      (tav_loop env w l).1 = false) := by
  refine ⟨?_, ?_, ?_, ?_, ?_, ?_, ?_⟩
  · intro env w e h
    unfold try_another_version
    dsimp only
    rw [h]
  · intro env w urls h
    unfold try_another_version
    dsimp only
    rw [h]
  · intro env w; rfl
  · intro env w u rest hd ht
    rw [tav_loop]
    dsimp only
    rw [if_pos hd, if_pos ht]
  · intro env w u rest hd ht
    rw [tav_loop]
    dsimp only
    rw [if_pos hd, if_neg (by rw [ht]; exact Bool.false_ne_true)]
  · intro env w u rest hd
    rw [tav_loop]
    dsimp only
    rw [if_neg (by rw [hd]; exact Bool.false_ne_true)]
  · intro env w l hf
    exact tav_loop_all_tests_false env hf l w

theorem C3_witness : (try_another_version envBadIndex w0Stage1).1 = false :=
  C3_first_success_short_circuit.1 envBadIndex w0Stage1 () rfl

/-- The spec's wording of the candidate criterion: the entry name has the
same major-version piece (text before the first dot) as the locally detected
browser version, and contains the configured OS tag as a substring. -/
def specCandidateMatch (version os_type : String) (u : Blob) : Prop :=
  pyMajor u.name = pyMajor version ∧ pyIn os_type u.name = true

instance (version os_type : String) (u : Blob) :
    Decidable (specCandidateMatch version os_type u) := by
  unfold specCandidateMatch
  infer_instance

/-- Claim C4: the alternative-version scan keeps exactly the index entries
matching the spec's criterion (same major-version piece and OS tag
substring), in original listing order (the result is a sublist of the
listing, with no reordering, and equals the listing filtered by the spec's
predicate). -/
theorem C4_scan_filter (version os_type : String) (urls : List Blob) :
    List.Sublist (tav_filter version os_type urls) urls ∧
    (∀ u, u ∈ tav_filter version os_type urls ↔
      u ∈ urls ∧ specCandidateMatch version os_type u) ∧
    tav_filter version os_type urls =
      urls.filter (fun u => decide (specCandidateMatch version os_type u)) := by
  refine ⟨List.filter_sublist urls, ?_, ?_⟩
  · intro u
    simp [tav_filter, List.mem_filter, specCandidateMatch]
  · apply List.filter_congr
    intro u _
    have hbe : (pyMajor u.name == pyMajor version)
        = decide (pyMajor u.name = pyMajor version) := by
      by_cases hmaj : pyMajor u.name = pyMajor version <;> simp [hmaj]
    simp [specCandidateMatch, hbe]

/-- Claim C8: `download` performs one GET of the current url and appends exactly
that to the trace; it extracts and returns true exactly on a 200 response
with a well-formed archive; any other status, a transport error (including a
`None` url), or an archive-parsing failure yields false, with no exception
escaping (the function is total). -/
theorem C8_download_behavior (env : Env) (w : World) :
    ((download env w).2.st = w.st) ∧
    (httpCall env w.st.url = HttpResult.transportError →
      download env w =
        (false, { w with events := w.events ++ [Event.httpGet w.st.url] })) ∧
    (∀ s a, httpCall env w.st.url = HttpResult.response s a → s ≠ 200 →
      download env w =
        (false, { w with events := w.events ++ [Event.httpGet w.st.url] })) ∧
    (httpCall env w.st.url = HttpResult.response 200 false →
      download env w =
        (false, { w with events := w.events ++ [Event.httpGet w.st.url] })) ∧
    (httpCall env w.st.url = HttpResult.response 200 true →
      download env w =
        (true, { w with events := w.events ++ [Event.httpGet w.st.url, Event.extracted] })) := by
  refine ⟨download_st env w, ?_, ?_, ?_, ?_⟩
  · intro h
    unfold download
    rw [h]
  · intro s a h hs
    unfold download
    rw [h]
    dsimp only
    rw [if_neg hs]
  · intro h
    unfold download
    rw [h]
    dsimp only
    rw [if_pos rfl, if_neg Bool.false_ne_true]
  · intro h
    unfold download
    rw [h]
    dsimp only
    rw [if_pos rfl]
    rfl

theorem C8_witness :
    download envStage1 w0Stage1 =
      (false, { w0Stage1 with
        events := w0Stage1.events ++ [Event.httpGet w0Stage1.st.url] }) :=
  (C8_download_behavior envStage1 w0Stage1).2.2.1 404 false rfl (by decide)

/-- Claim C9: `send_mail` never changes the object state and never raises; on any
reachable state (where `self.token_mail` was never assigned) it takes the
caught-`AttributeError` path, so it returns normally having only recorded
the attempt, delivering nothing. -/
theorem C9_send_mail_best_effort (env : Env) (w : World) (message subject : String) :
    (send_mail env w message subject).st = w.st ∧
    (w.st.token_mail = none →
      send_mail env w message subject =
        { w with events := w.events ++ [Event.mailAttempt] }) ∧
    (Reachable env w →
      send_mail env w message subject =
        { w with events := w.events ++ [Event.mailAttempt] }) := by
  refine ⟨send_mail_st env w message subject, send_mail_none env w message subject, ?_⟩
  intro h
  exact send_mail_none env w message subject (reachable_missing_attrs env w h).2.1

theorem C9_witness :
    send_mail envStage1 w0Stage1 "mensaje" "asunto" =
      { w0Stage1 with events := w0Stage1.events ++ [Event.mailAttempt] } :=
  (C9_send_mail_best_effort envStage1 w0Stage1 "mensaje" "asunto").2.1 rfl

/-- Claim C10: when the index parse succeeded and `try_another_version` returns
false after attempting a nonempty candidate list, `self.url` is left equal
to the url of the last candidate attempted (the original matched-version url
is not restored). -/
theorem C10_url_not_restored (env : Env) (w : World) (urls : List Blob)
    (hidx : env.indexFetch = Except.ok urls)
    (hne : tav_filter w.st.version w.st.os_type urls ≠ [])
    (hres : (try_another_version env w).1 = false) :
    (try_another_version env w).2.st.url =
      ((tav_filter w.st.version w.st.os_type urls).getLast hne).url := by
  have hunf : try_another_version env w =
      tav_loop env { w with events := w.events ++ [Event.indexGet] }
        (tav_filter w.st.version w.st.os_type urls) := by
    unfold try_another_version
    dsimp only
    rw [hidx]
  rw [hunf] at hres ⊢
  exact tav_loop_exhausted_url env _ _ hne hres

theorem C10_witness :
    (try_another_version envAllFail w0Stage1).2.st.url =
      ((tav_filter w0Stage1.st.version w0Stage1.st.os_type
          [blobA, blobC, blobB, blobD]).getLast (by decide)).url :=
  C10_url_not_restored envAllFail w0Stage1 [blobA, blobC, blobB, blobD]
    rfl (by decide) rfl

theorem C1_counterexample :
    envStage1.tests 0 = true ∧
    (main_run envStage1).2 = [Event.smokeTest true] ∧
    Event.distributeCall ∉ (main_run envStage1).2 := by
  refine ⟨rfl, rfl, ?_⟩
  decide

/-- Claim C1 (amended): when the smoke test on the already-present driver succeeds
(stage 1), the run performs no network access (no archive GET, no index GET)
but also does NOT invoke `copy_to_path`; `copy_to_path` is invoked exactly
when stage 2 or stage 3 succeeds. -/
theorem C1_distribution_calls (env : Env) (w0 : World)
    (hinit : EdgeDriverLocal_init env "win64" = Except.ok w0) :
    ((test env w0).1 = true →
      (main_run env).2 = [Event.smokeTest (env.tests 0)] ∧
      Event.distributeCall ∉ (main_run env).2 ∧
      Event.indexGet ∉ (main_run env).2 ∧
      (∀ u, Event.httpGet u ∉ (main_run env).2)) ∧
    ((test env w0).1 = false →
      (test env (download env (test env w0).2).2).1 = true →
      Event.distributeCall ∈ (main_run env).2) ∧
    ((test env w0).1 = false →
      (test env (download env (test env w0).2).2).1 = false →
      (try_another_version env (test env (download env (test env w0).2).2).2).1 = true →
      Event.distributeCall ∈ (main_run env).2) := by
  obtain ⟨hev, hcalls, -, -, -, -⟩ := init_ok_fields env "win64" w0 hinit
  refine ⟨?_, ?_, ?_⟩
  · intro h1
    rw [main_run_stage1 env w0 hinit h1]
    have htr : (test env w0).2.events = [Event.smokeTest (env.tests 0)] := by
      rw [test_events, hev, hcalls]
      rfl
    dsimp only
    rw [htr]
    refine ⟨rfl, by simp, by simp, fun u => by simp⟩
  · intro h1 h2
    rw [main_run_stage2_crash env w0 hinit h1 h2]
    simp
  · intro h1 h2 h3
    rw [main_run_stage3_crash env w0 hinit h1 h2 h3]
    simp

theorem C1_witness : Event.distributeCall ∈ (main_run envStage2).2 :=
  (C1_distribution_calls envStage2 w0Stage1 init_envStage2).2.1 rfl rfl

theorem C5_counterexample :
    main_run envRegistryFail = (ExitKind.crash Crash.registryError, []) ∧
    Event.mailAttempt ∉ (main_run envRegistryFail).2 := by
  refine ⟨rfl, ?_⟩
  decide

/-- Claim C5 (amended): the process can die with an unhandled exception in exactly
three places: the initial browser-version detection (which does NOT notify
anyone), the configuration load (which attempts one operator notification
before the crash), and the distribution step (`AttributeError` on
`BOT_FOLDERS`); every network, parsing, or process-launch error in
`download`, `test` and `try_another_version` is caught and converted into a
boolean. -/
theorem C5_crash_surface (env : Env) :
    (∀ c evs, main_run env = (ExitKind.crash c, evs) →
      c = Crash.registryError ∨ c = Crash.configError ∨
        c = Crash.attributeError "BOT_FOLDERS") ∧
    (∀ e, env.registryVersion = Except.error e →
      main_run env = (ExitKind.crash Crash.registryError, [])) ∧
    (∀ v e, env.registryVersion = Except.ok v → env.propertiesFile = Except.error e →
      main_run env = (ExitKind.crash Crash.configError, [Event.mailAttempt])) := by
  refine ⟨?_, ?_, ?_⟩
  · intro c evs hm
    cases hinit : EdgeDriverLocal_init env "win64" with
    | error ce =>
        have hmain : main_run env = (ExitKind.crash ce.1, ce.2) := by
          unfold main_run
          rw [hinit]
        rcases init_error_crash env "win64" ce hinit with h | h <;>
          rw [h] at hmain <;> rw [hmain] at hm
        · injection hm with ha hb
          injection ha with ha'
          exact Or.inl ha'.symm
        · injection hm with ha hb
          injection ha with ha'
          exact Or.inr (Or.inl ha'.symm)
    | ok w0 =>
        by_cases h1 : (test env w0).1 = true
        · rw [main_run_stage1 env w0 hinit h1] at hm
          injection hm with ha hb
          cases ha
        · have h1' : (test env w0).1 = false := by simpa using h1
          by_cases h2 : (test env (download env (test env w0).2).2).1 = true
          · rw [main_run_stage2_crash env w0 hinit h1' h2] at hm
            injection hm with ha hb
            injection ha with ha'
            exact Or.inr (Or.inr ha'.symm)
          · have h2' : (test env (download env (test env w0).2).2).1 = false := by
              simpa using h2
            by_cases h3 :
                (try_another_version env (test env (download env (test env w0).2).2).2).1
                  = true
            · rw [main_run_stage3_crash env w0 hinit h1' h2' h3] at hm
              injection hm with ha hb
              injection ha with ha'
              exact Or.inr (Or.inr ha'.symm)
            · have h3' :
                  (try_another_version env
                      (test env (download env (test env w0).2).2).2).1 = false := by
                simpa using h3
              obtain ⟨hk, -⟩ := main_run_exhausted env w0 hinit h1' h2' h3'
              rw [hm] at hk
              cases hk
  · intro e he
    unfold main_run EdgeDriverLocal_init
    rw [he]
  · intro v e hv he
    unfold main_run EdgeDriverLocal_init import_data
    rw [hv, he]
    rfl

theorem C5_witness :
    main_run envRegistryFail = (ExitKind.crash Crash.registryError, []) :=
  (C5_crash_surface envRegistryFail).2.1 () rfl

theorem C6_counterexample :
    (main_run envAllFail).1 = ExitKind.exitCall ∧
    exitCode (main_run envAllFail).1 = 0 := ⟨rfl, rfl⟩

/-- Claim C6 (amended): when no driver version could be provisioned after all
stages, the process terminates early via `exit()`, i.e. with exit status 0
(a normal exit, not a failure indication); when stage 1 succeeds it ends
normally with status 0 and no distribution; when stage 2 or stage 3
succeeds, the run dies with a nonzero status from the `AttributeError`
raised inside the distribution step. -/
theorem C6_exit_status (env : Env) (w0 : World)
    (hinit : EdgeDriverLocal_init env "win64" = Except.ok w0) :
    ((test env w0).1 = true →
      (main_run env).1 = ExitKind.normal ∧ exitCode (main_run env).1 = 0) ∧
    ((test env w0).1 = false →
      (test env (download env (test env w0).2).2).1 = false →
      (try_another_version env (test env (download env (test env w0).2).2).2).1 = false →
      (main_run env).1 = ExitKind.exitCall ∧ exitCode (main_run env).1 = 0) ∧
    ((test env w0).1 = false →
      (test env (download env (test env w0).2).2).1 = true →
      (main_run env).1 = ExitKind.crash (Crash.attributeError "BOT_FOLDERS") ∧
        exitCode (main_run env).1 = 1) ∧
    ((test env w0).1 = false →
      (test env (download env (test env w0).2).2).1 = false →
      (try_another_version env (test env (download env (test env w0).2).2).2).1 = true →
      (main_run env).1 = ExitKind.crash (Crash.attributeError "BOT_FOLDERS") ∧
        exitCode (main_run env).1 = 1) := by
  refine ⟨?_, ?_, ?_, ?_⟩
  · intro h1
    rw [main_run_stage1 env w0 hinit h1]
    exact ⟨rfl, rfl⟩
  · intro h1 h2 h3
    obtain ⟨hk, -⟩ := main_run_exhausted env w0 hinit h1 h2 h3
    refine ⟨hk, ?_⟩
    rw [hk]
    rfl
  · intro h1 h2
    rw [main_run_stage2_crash env w0 hinit h1 h2]
    exact ⟨rfl, rfl⟩
  · intro h1 h2 h3
    rw [main_run_stage3_crash env w0 hinit h1 h2 h3]
    exact ⟨rfl, rfl⟩

theorem C6_witness :
    (main_run envStage2).1 = ExitKind.crash (Crash.attributeError "BOT_FOLDERS") ∧
      exitCode (main_run envStage2).1 = 1 :=
  (C6_exit_status envStage2 w0Stage1 init_envStage2).2.2.1 rfl rfl

/-- Claim C7: on a run of the full ladder where the index parse succeeded and the
candidate loop exhausted without success (zero matching candidates or all
failing download/test), `try_another_version` returns false and exactly one
operator-notification attempt occurs in the whole run (the one issued by the
`__main__` block). -/
theorem C7_exhaustion_single_notification (env : Env) (w0 w1 w2 : World)
    (urls : List Blob)
    (hinit : EdgeDriverLocal_init env "win64" = Except.ok w0)
    (h1 : test env w0 = (false, w1))
    (h2 : test env (download env w1).2 = (false, w2))
    (hidx : env.indexFetch = Except.ok urls)
    (hloop : (tav_loop env { w2 with events := w2.events ++ [Event.indexGet] }
        (tav_filter w2.st.version w2.st.os_type urls)).1 = false) :
    (try_another_version env w2).1 = false ∧ mailCount (main_run env).2 = 1 := by
  have htav : (try_another_version env w2).1 = false := by
    unfold try_another_version
    dsimp only
    rw [hidx]
    exact hloop
  refine ⟨htav, ?_⟩
  have e1 : (test env w0).1 = false := by rw [h1]
  have e1' : (test env w0).2 = w1 := by rw [h1]
  have e2 : (test env (download env (test env w0).2).2).1 = false := by rw [e1', h2]
  have e2' : (test env (download env (test env w0).2).2).2 = w2 := by rw [e1', h2]
  have e3 : (try_another_version env (test env (download env (test env w0).2).2).2).1
      = false := by
    rw [e2']
    exact htav
  obtain ⟨-, hcount⟩ := main_run_exhausted env w0 hinit e1 e2 e3
  have hm1 : mailCount w1.events = 0 := by
    have ha : mailCount (test env w0).2.events = mailCount w0.events := test_mailCount env w0
    rw [h1, (init_ok_fields env "win64" w0 hinit).1] at ha
    exact ha
  have hm2 : mailCount w2.events = 0 := by
    have hb : mailCount (test env (download env w1).2).2.events = mailCount w1.events := by
      rw [test_mailCount, download_mailCount]
    rw [h2] at hb
    rw [hb]
    exact hm1
  rw [hcount, e2', tav_mailCount_ok env w2 urls hidx, hm2]

theorem C7_witness :
    (try_another_version envAllFail
        (test envAllFail (download envAllFail (test envAllFail w0Stage1).2).2).2).1 = false ∧
    mailCount (main_run envAllFail).2 = 1 :=
  C7_exhaustion_single_notification envAllFail w0Stage1
    (test envAllFail w0Stage1).2
    (test envAllFail (download envAllFail (test envAllFail w0Stage1).2).2).2
    [blobA, blobC, blobB, blobD] init_envAllFail rfl rfl rfl rfl

end WebDriver
